import Mathlib

/-!
# Verification of the llamaindex-mcp-server core

A shallow embedding, in Lean 4, of the core of the `llamaindex-mcp-server`
repository: the documentation fetch-and-cache layer and the search scan
(`llamaindex_doc_server.py`), the catalog bootstrap with its fixed fallback
set, and the JSON-RPC dispatcher of `app/mcp_server.py`.

Modelling conventions:
* JSON values are modelled by the inductive `Json` (numbers as integers;
  no claim under study involves fractional values).
* Python exceptions relevant to the control flow are modelled by `PyExc`;
  `try/except` blocks become `Except (PyExc × DocState) _` values, the
  state component carrying the server state at the raise point.
* The outbound HTTP GET plus HTML-to-text extraction is an external
  capability; it is modelled by a `World` oracle mapping each URL to either
  extracted text or a raised exception, exactly the two ways the
  `client.get` / `raise_for_status` / BeautifulSoup pipeline can end.
* The boolean in the fetcher result records whether an outbound request was
  attempted (false exactly on the cache-hit path), so that cache-hit claims
  are expressible.
-/

set_option autoImplicit false

/-- JSON values as delivered by the transport layer (numbers as integers). -/
inductive Json where
  | null
  | bool (b : Bool)
  | num (n : Int)
  | str (s : String)
  | arr (elems : List Json)
  | obj (fields : List (String × Json))

/-- The Python exception kinds that drive control flow in the source:
`httpx.RequestError` and `httpx.HTTPStatusError` (both subclasses of
`httpx.HTTPError`), plus the builtin exceptions named in `except` clauses. -/
inductive PyExc where
  | requestError (msg : String)
  | httpStatusError (msg : String)
  | httpError (msg : String)
  | attributeError (msg : String)
  | typeError (msg : String)
  | valueError (msg : String)
  | keyError (msg : String)
  | runtimeError (msg : String)
deriving DecidableEq

/-- Matches `except httpx.RequestError`. -/
def PyExc.isRequestError : PyExc → Bool
  | .requestError _ => true
  | _ => false

/-- Matches `except httpx.HTTPError`: in httpx both `RequestError` and
`HTTPStatusError` subclass `HTTPError`. -/
def PyExc.isHTTPError : PyExc → Bool
  | .requestError _ => true
  | .httpStatusError _ => true
  | .httpError _ => true
  | _ => false

/-- Matches `except httpx.HTTPStatusError`. -/
def PyExc.isHTTPStatusError : PyExc → Bool
  | .httpStatusError _ => true
  | _ => false

/-- Matches `except (AttributeError, TypeError, ValueError)`. -/
def PyExc.isATV : PyExc → Bool
  | .attributeError _ => true
  | .typeError _ => true
  | .valueError _ => true
  | _ => false

/-- The `str(e)` message carried by the exception. -/
def PyExc.msg : PyExc → String
  | .requestError m => m
  | .httpStatusError m => m
  | .httpError m => m
  | .attributeError m => m
  | .typeError m => m
  | .valueError m => m
  | .keyError m => m
  | .runtimeError m => m

/-- `models.MCPResource`: a documentation resource descriptor.  The source
declares the dataclass default `mime_type = "text/plain"`. -/
structure MCPResource where
  uri : String
  name : String
  description : String
  mime_type : String := "text/plain"
deriving DecidableEq

/-- `models.MCPTool`: a static tool descriptor. -/
structure MCPTool where
  name : String
  description : String
  input_schema : Json

/-- The mutable state of `LlamaIndexDocServer`: the resource catalog and the
content cache (`cached_docs`, a dict from URI to extracted text, modelled as
an association list that only ever receives fresh keys). -/
structure DocState where
  resources : List MCPResource
  cached_docs : List (String × String)
deriving DecidableEq

/-- The state of a freshly constructed `LlamaIndexDocServer`. -/
def freshDocState : DocState := { resources := [], cached_docs := [] }

/-- Outcome of one outbound GET-plus-extract attempt for a given URL:
either the extracted text, or the exception raised by the network client,
by `raise_for_status`, or by the HTML parsing step. -/
inductive FetchOutcome where
  | success (text : String)
  | exc (e : PyExc)

/-- The external network/parsing capability: what fetching each URL does. -/
def World : Type := String → FetchOutcome

/-- Python dict lookup on the content cache (`uri in self.cached_docs`). -/
def lookupCache (st : DocState) (uri : String) : Option String :=
  match st.cached_docs.find? (fun p => p.1 == uri) with
  | some p => some p.2
  | none => none

/-- Python `needle in haystack` on lists of characters. -/
def containsSeq (hay needle : List Char) : Bool :=
  match hay with
  | [] => needle.isEmpty
  | _ :: t => needle.isPrefixOf hay || containsSeq t needle

/-- Python `needle in haystack` substring test on strings. -/
def pyIn (needle hay : String) : Bool :=
  containsSeq hay.data needle.data

/-- Python `str.lower()` (ASCII model). -/
def lowerStr (s : String) : String :=
  String.mk (s.data.map Char.toLower)

/-- `LlamaIndexDocServer.fetch_resource_content`, from
`llamaindex_doc_server.py` lines 90-117.  Checks the cache; on a miss
performs the GET/extract (the `World` oracle); memoizes and returns the
text on success; the `except httpx.RequestError`, `except httpx.HTTPError`
and `except (AttributeError, TypeError, ValueError)` clauses return error
strings without touching the cache; any other exception propagates.
The boolean records whether an outbound request was attempted. -/
def fetch_resource_content (st : DocState) (world : World) (uri : String) :
    Except (PyExc × DocState) (String × DocState × Bool) :=
  match lookupCache st uri with
  | some cached => .ok (cached, st, false)
  | none =>
    match world uri with
    | .success text =>
      .ok (text, { st with cached_docs := (uri, text) :: st.cached_docs }, true)
    | .exc e =>
      if e.isRequestError then
        .ok ("HTTP error fetching content: " ++ e.msg, st, true)
      else if e.isHTTPError then
        .ok ("HTTP error fetching content: " ++ e.msg, st, true)
      else if e.isATV then
        .ok ("Unexpected error fetching content: " ++ e.msg, st, true)
      else
        .error (e, st)

/-- `fetch_resource_content` as invoked with an arbitrary JSON argument by
the dispatcher.  For a non-string URI the httpx client raises `TypeError`
before any request is sent; that `TypeError` is inside the fetcher's `try`
and is converted to error text by its `(AttributeError, TypeError,
ValueError)` clause (non-string keys never occur in the cache). -/
def fetchResourceContentJ (st : DocState) (world : World) (uri : Json) :
    Except (PyExc × DocState) (String × DocState × Bool) :=
  match uri with
  | .str u => fetch_resource_content st world u
  | _ => .ok ("Unexpected error fetching content: Invalid type for url", st, false)

/-- Python `content.split(chr(10))`: split into lines at newline characters,
keeping empty segments (so `""` splits to `[""]`). -/
def splitLinesAux (cs : List Char) (acc : List Char) : List String :=
  match cs with
  | [] => [String.mk acc.reverse]
  | c :: rest =>
    if c = '\n' then String.mk acc.reverse :: splitLinesAux rest []
    else splitLinesAux rest (c :: acc)

/-- Python `content.split` on newline. -/
def splitLines (s : String) : List String :=
  splitLinesAux s.data []

/-- Python `sep.join(lines)` for the newline separator. -/
def joinLines : List String → String
  | [] => ""
  | [l] => l
  | l :: rest => l ++ "\n" ++ joinLines rest

/-- Python slice `s[:n]` (by code point). -/
def strTake (s : String) (n : Nat) : String :=
  String.mk (s.data.take n)

/-- Python `len(s)` (code points). -/
def strLen (s : String) : Nat :=
  s.data.length

/-- One search hit, `{uri, title, snippet}` as appended by
`search_documentation`. -/
structure SearchResult where
  uri : String
  title : String
  snippet : String
deriving DecidableEq

/-- The snippet construction of `search_documentation` lines 127-134:
collect the lines of the content containing the lowered query, join the
first three with newlines, and truncate to 200 characters with a trailing
ellipsis if longer than 200. -/
def mkSnippet (content : String) (queryLower : String) : String :=
  let lines := splitLines content
  let relevantLines := lines.filter (fun line => pyIn queryLower (lowerStr line))
  let snippet := joinLines (relevantLines.take 3)
  if strLen snippet > 200 then strTake snippet 200 ++ "..." else snippet

/-- Python `len(results) >= limit` where `limit` came from JSON: defined for
numbers (and booleans, which Python treats as integers); any other operand
raises `TypeError`. -/
def pyIntGe (k : Nat) : Json → Except PyExc Bool
  | .num n => .ok (decide (n ≤ (k : Int)))
  | .bool b => .ok (decide ((if b then (1 : Int) else 0) ≤ (k : Int)))
  | _ => .error (.typeError "unsupported comparison between int and non-int")

/-- The `for resource in self.resources` loop of `search_documentation`
lines 123-137, threading the doc-server state (content fetches memoize) and
the accumulated results.  Note the source checks `len(results) >= limit`
only after appending a result. -/
def searchLoop (world : World) (st : DocState) (rs : List MCPResource)
    (queryLower : String) (limit : Json) (acc : List SearchResult) :
    Except (PyExc × DocState) (List SearchResult × DocState) :=
  match rs with
  | [] => .ok (acc.reverse, st)
  | r :: rest =>
    if pyIn queryLower (lowerStr r.description) || pyIn queryLower (lowerStr r.name) then
      match fetch_resource_content st world r.uri with
      | .error es => .error es
      | .ok (content, st1, _) =>
        if pyIn queryLower (lowerStr content) then
          let hit : SearchResult :=
            { uri := r.uri, title := r.description, snippet := mkSnippet content queryLower }
          let acc1 := hit :: acc
          match pyIntGe acc1.length limit with
          | .error e => .error (e, st1)
          | .ok true => .ok (acc1.reverse, st1)
          | .ok false => searchLoop world st1 rest queryLower limit acc1
        else searchLoop world st1 rest queryLower limit acc
    else searchLoop world st rest queryLower limit acc

/-- `LlamaIndexDocServer.search_documentation`, lines 119-138.  The query
arrives as JSON from the dispatcher; `query.lower()` on anything but a
string raises `AttributeError` (in particular on `None` when the `query`
argument was omitted), and that exception is not caught here. -/
def search_documentation (st : DocState) (world : World) (query : Json)
    (limit : Json) : Except (PyExc × DocState) (List SearchResult × DocState) :=
  match query with
  | .str q => searchLoop world st st.resources (lowerStr q) limit []
  | _ => .error (.attributeError "object has no attribute lower", st)

/-- The base URL `https://docs.llamaindex.ai`. -/
def baseUrl : String := "https://docs.llamaindex.ai"

/-- Python `title.lower().replace(chr(32), chr(95))`. -/
def lowerUnderscore (s : String) : String :=
  String.mk (s.data.map (fun c => if c = ' ' then '_' else c.toLower))

/-- The fixed `default_docs` list of `_add_default_resources`, lines 74-80. -/
def default_docs : List (String × String) :=
  [("/en/stable/getting_started/starter_example.html", "Getting Started"),
   ("/en/stable/module_guides/loading/", "Data Loading"),
   ("/en/stable/module_guides/indexing/", "Indexing"),
   ("/en/stable/module_guides/querying/", "Querying"),
   ("/en/stable/module_guides/agents/", "Agents")]

/-- `LlamaIndexDocServer._add_default_resources`, lines 72-88: append the
five well-known resources, named from their lower-cased titles with spaces
replaced by underscores, all with mime type `text/html`. -/
def add_default_resources (st : DocState) : DocState :=
  { st with
    resources := st.resources ++ default_docs.map (fun pt =>
      { uri := baseUrl ++ pt.1,
        name := "llamaindex_" ++ lowerUnderscore pt.2,
        description := "LlamaIndex Documentation: " ++ pt.2,
        mime_type := "text/html" }) }

/-- The `for url, title in doc_links[:50]` loop of `_fetch_doc_structure`
lines 54-64: walk the (already truncated) link list, skipping URLs already
seen, and append a resource named `llamaindex_doc_<len(resources)>` with
mime type `text/html` for each fresh URL. -/
def buildDiscovered (idx : Nat) (links : List (String × String))
    (seen : List String) : List MCPResource :=
  match links with
  | [] => []
  | (url, title) :: rest =>
    if url ∈ seen then buildDiscovered idx rest seen
    else
      { uri := url,
        name := "llamaindex_doc_" ++ toString idx,
        description := "LlamaIndex Documentation: " ++ title,
        mime_type := "text/html" } :: buildDiscovered (idx + 1) rest (url :: seen)

/-- Outcome of the index-page fetch-and-parse step of
`_fetch_doc_structure`: either the filtered `doc_links` list of
`(full_url, title)` pairs that the link-collection loop produced, or the
exception raised by the GET, by `raise_for_status`, or by parsing. -/
inductive DiscoveryOutcome where
  | links (ls : List (String × String))
  | exc (e : PyExc)

/-- `LlamaIndexDocServer._fetch_doc_structure`, lines 38-70.  On success it
appends resources for the first 50 links (note: the source truncates
`doc_links[:50]` before deduplicating).  Its `except` clauses cover
`httpx.RequestError` and `(AttributeError, TypeError, ValueError)`, both
falling back to the default resources; `httpx.HTTPStatusError` raised by
`raise_for_status` matches neither clause and propagates. -/
def fetch_doc_structure (st : DocState) (d : DiscoveryOutcome) :
    Except (PyExc × DocState) DocState :=
  match d with
  | .links ls =>
    .ok { st with resources := st.resources ++ buildDiscovered st.resources.length (ls.take 50) [] }
  | .exc e =>
    if e.isRequestError then .ok (add_default_resources st)
    else if e.isATV then .ok (add_default_resources st)
    else .error (e, st)

/-- `LlamaIndexDocServer.initialize`, lines 25-36 (named `docServerInit`
here): run `_fetch_doc_structure`; catch `httpx.HTTPStatusError`,
`httpx.RequestError` and `(AttributeError, TypeError, ValueError)`, each
only logging — in particular a propagated `HTTPStatusError` leaves the
state exactly as `_fetch_doc_structure` left it. -/
def docServerInit (st : DocState) (d : DiscoveryOutcome) :
    Except (PyExc × DocState) DocState :=
  match fetch_doc_structure st d with
  | .ok st1 => .ok st1
  | .error (e, st1) =>
    if e.isHTTPStatusError || e.isRequestError || e.isATV then .ok st1
    else .error (e, st1)

/-- Modelled from the spec: `app/llamaindex_doc_server.py` is not present in
the sources (only its caller `app/mcp_server.py` and the startup hook in
`app/main.py` are).  Per spec section 4.2, its discovery step accepts an
optional maximum resource count (default 50), deduplicates the collected
links by resolved URL preserving first-seen order, truncates to the
configured maximum, and names each surviving link positionally.  The
deduplication pass, carrying the set of URLs already seen. -/
def dedupLinks (links : List (String × String)) (seen : List String) :
    List (String × String) :=
  match links with
  | [] => []
  | (url, title) :: rest =>
    if url ∈ seen then dedupLinks rest seen
    else (url, title) :: dedupLinks rest (url :: seen)

/-- Modelled from the spec: resource synthesis for the spec-described
discovery of the missing `app/llamaindex_doc_server.py` — one resource per
surviving link, with an auto-incrementing positional name and a description
derived from the link's label. -/
def mkDocResources (idx : Nat) (links : List (String × String)) : List MCPResource :=
  match links with
  | [] => []
  | (url, title) :: rest =>
    { uri := url,
      name := "doc_" ++ toString idx,
      description := title,
      mime_type := "text/html" } :: mkDocResources (idx + 1) rest

/-- Modelled from the spec: `discover` of the missing
`app/llamaindex_doc_server.py` (spec section 4.2) — deduplicate the
collected same-site links by resolved URL preserving first-seen order, then
truncate to the configured maximum resource count. -/
def discover (links : List (String × String)) (limit : Nat) : List MCPResource :=
  mkDocResources 0 ((dedupLinks links []).take limit)

/-- Python dict `.get(key)` on a JSON object's field list. -/
def jget (fields : List (String × Json)) (key : String) : Option Json :=
  match fields with
  | [] => none
  | (k, v) :: rest => if k == key then some v else jget rest key

/-- Python truthiness test `not x` on a JSON value. -/
def jsonFalsy : Json → Bool
  | .null => true
  | .bool b => !b
  | .num n => n == 0
  | .str s => s.data.isEmpty
  | .arr l => l.isEmpty
  | .obj l => l.isEmpty

/-- Python `x == lit` where `lit` is a string literal and `x` came from
`dict.get`: true exactly when `x` is that very string (comparison with
`None` or a non-string is `False`, not an error). -/
def isJStr (x : Option Json) (lit : String) : Bool :=
  match x with
  | some (.str s) => s == lit
  | _ => false

/-- Python `str(x)` for the f-string error messages of the dispatcher.
Faithful for `None`, booleans, numbers and strings; the rendering of
composite values is abstracted (no claim depends on it). -/
def pyStr : Json → String
  | .null => "None"
  | .bool true => "True"
  | .bool false => "False"
  | .num n => toString n
  | .str s => s
  | .arr _ => "<list>"
  | .obj _ => "<dict>"

/-- `str(method)` where `method = request.get("method")` may be absent. -/
def pyStrOpt : Option Json → String
  | none => "None"
  | some j => pyStr j

/-- The `initialize` method's static result literal
(`app/mcp_server.py` lines 88-98). -/
def initResult : Json :=
  Json.obj
    [("protocolVersion", Json.str "2024-11-05"),
     ("capabilities", Json.obj
       [("resources", Json.obj
         [("subscribe", Json.bool true), ("listChanged", Json.bool true)]),
        ("tools", Json.obj [("listChanged", Json.bool true)])]),
     ("serverInfo", Json.obj
       [("name", Json.str "llamaindex-docs-server"),
        ("version", Json.str "1.0.0")])]

/-- The `resources/list` projection of the catalog (lines 100-110). -/
def resourcesListResult (rs : List MCPResource) : Json :=
  Json.obj [("resources", Json.arr (rs.map (fun r =>
    Json.obj [("uri", Json.str r.uri),
              ("name", Json.str r.name),
              ("description", Json.str r.description),
              ("mimeType", Json.str r.mime_type)])))]

/-- The `resources/read` success payload (lines 123-131): content always
reported with mime type `text/plain`, whatever the resource declares. -/
def readResult (uri : Json) (text : String) : Json :=
  Json.obj [("contents", Json.arr
    [Json.obj [("uri", uri),
               ("mimeType", Json.str "text/plain"),
               ("text", Json.str text)]])]

/-- The input schema of the `search_llamaindex_docs` tool
(`app/mcp_server.py` lines 30-44). -/
def searchToolSchema : Json :=
  Json.obj
    [("type", Json.str "object"),
     ("properties", Json.obj
       [("query", Json.obj
         [("type", Json.str "string"),
          ("description", Json.str "Search query for LlamaIndex documentation")]),
        ("limit", Json.obj
         [("type", Json.str "integer"),
          ("description", Json.str "Maximum number of results to return"),
          ("default", Json.num 5)])]),
     ("required", Json.arr [Json.str "query"])]

/-- The input schema of the `get_llamaindex_resource` tool (lines 49-58). -/
def getResourceToolSchema : Json :=
  Json.obj
    [("type", Json.str "object"),
     ("properties", Json.obj
       [("uri", Json.obj
         [("type", Json.str "string"),
          ("description", Json.str "URI of the documentation resource to fetch")])]),
     ("required", Json.arr [Json.str "uri"])]

/-- The static `self.tools` list of `MCPServer.__init__` (lines 26-60). -/
def mcpTools : List MCPTool :=
  [{ name := "search_llamaindex_docs",
     description := "Search through LlamaIndex documentation",
     input_schema := searchToolSchema },
   { name := "get_llamaindex_resource",
     description := "Get the full content of a specific LlamaIndex documentation resource",
     input_schema := getResourceToolSchema }]

/-- The `tools/list` projection (lines 132-142). -/
def toolsListResult : Json :=
  Json.obj [("tools", Json.arr (mcpTools.map (fun t =>
    Json.obj [("name", Json.str t.name),
              ("description", Json.str t.description),
              ("inputSchema", t.input_schema)])))]

/-- Rendering of search hits abstracting `json.dumps(results, indent=2)`;
the exact text formatting is not load-bearing for any claim. -/
def dumpResults (rs : List SearchResult) : String :=
  "[" ++ joinLines (rs.map (fun r =>
    "uri=" ++ r.uri ++ " title=" ++ r.title ++ " snippet=" ++ r.snippet)) ++ "]"

/-- The `tools/call` text payload wrapping for the search tool
(lines 150-157). -/
def searchCallResult (rs : List SearchResult) : Json :=
  Json.obj [("content", Json.arr
    [Json.obj [("type", Json.str "text"),
               ("text", Json.str (dumpResults rs))]])]

/-- The `tools/call` text payload wrapping for the get-resource tool
(lines 161-168). -/
def toolTextResult (text : String) : Json :=
  Json.obj [("content", Json.arr
    [Json.obj [("type", Json.str "text"), ("text", Json.str text)]])]

/-- Outcome of the dispatch body inside `handle_request`'s `try`: either a
computed `result` payload to be wrapped into a success response, or one of
the early-returned error responses (missing `uri`, unknown tool, unknown
method). -/
inductive BodyOut where
  | success (result : Json) (st : DocState)
  | errResp (code : Int) (message : String) (st : DocState)

/-- The body of `MCPServer.handle_request` (`app/mcp_server.py` lines
85-193), before exception handling: route on the method name exactly as the
`if/elif` chain does.  Calling `.get` on a non-dict `params`/`arguments`
raises `AttributeError`, which no `except` clause of the dispatcher names. -/
def handleBody (st : DocState) (world : World) (req : List (String × Json)) :
    Except (PyExc × DocState) BodyOut :=
  let method := jget req "method"
  if isJStr method "initialize" then
    .ok (.success initResult st)
  else if isJStr method "resources/list" then
    .ok (.success (resourcesListResult st.resources) st)
  else if isJStr method "resources/read" then
    match (jget req "params").getD (Json.obj []) with
    | .obj pl =>
      let uri := (jget pl "uri").getD Json.null
      if jsonFalsy uri then
        .ok (.errResp (-32602) "Invalid params: URI parameter is required" st)
      else
        match fetchResourceContentJ st world uri with
        | .ok (content, st1, _) => .ok (.success (readResult uri content) st1)
        | .error es => .error es
    | _ => .error (.attributeError "object has no attribute get", st)
  else if isJStr method "tools/list" then
    .ok (.success toolsListResult st)
  else if isJStr method "tools/call" then
    match (jget req "params").getD (Json.obj []) with
    | .obj pl =>
      let toolName := jget pl "name"
      let arguments := (jget pl "arguments").getD (Json.obj [])
      if isJStr toolName "search_llamaindex_docs" then
        match arguments with
        | .obj al =>
          let query := (jget al "query").getD Json.null
          let limit := (jget al "limit").getD (Json.num 5)
          match search_documentation st world query limit with
          | .ok (results, st1) => .ok (.success (searchCallResult results) st1)
          | .error es => .error es
        | _ => .error (.attributeError "object has no attribute get", st)
      else if isJStr toolName "get_llamaindex_resource" then
        match arguments with
        | .obj al =>
          let uri := (jget al "uri").getD Json.null
          match fetchResourceContentJ st world uri with
          | .ok (content, st1, _) => .ok (.success (toolTextResult content) st1)
          | .error es => .error es
        | _ => .error (.attributeError "object has no attribute get", st)
      else
        .ok (.errResp (-32601)
          ("Method not found: Unknown tool " ++ pyStrOpt toolName) st)
    | _ => .error (.attributeError "object has no attribute get", st)
  else
    .ok (.errResp (-32601) ("Method not found: " ++ pyStrOpt method) st)

/-- A JSON-RPC error object `{code, message}`. -/
structure RpcError where
  code : Int
  message : String
deriving DecidableEq

/-- A dispatcher response: every return site of `handle_request` builds a
dict with exactly `jsonrpc`, `id` and one of `result`/`error`. -/
structure RpcResponse where
  jsonrpc : String
  id : Json
  result : Option Json
  error : Option RpcError

/-- A success response as built at `app/mcp_server.py` lines 187-191. -/
def mkResultResponse (rid : Json) (r : Json) : RpcResponse :=
  { jsonrpc := "2.0", id := rid, result := some r, error := none }

/-- An error response as built at the error return sites of
`handle_request`. -/
def mkErrorResponse (rid : Json) (code : Int) (message : String) : RpcResponse :=
  { jsonrpc := "2.0", id := rid, result := none, error := some ⟨code, message⟩ }

/-- `MCPServer.handle_request` (`app/mcp_server.py` lines 71-223): extract
`id`, run the dispatch body, wrap the outcome; `except ValueError` maps to
code -32602, `except KeyError` to -32602 with a `Missing key` message, and
`except (TypeError, RuntimeError)` to -32603.  Any other exception — in
particular `AttributeError` — escapes to the transport layer. -/
def handle_request (st : DocState) (world : World) (req : List (String × Json)) :
    Except (PyExc × DocState) (RpcResponse × DocState) :=
  let rid := (jget req "id").getD Json.null
  match handleBody st world req with
  | .ok (.success r st1) => .ok (mkResultResponse rid r, st1)
  | .ok (.errResp code msg st1) => .ok (mkErrorResponse rid code msg, st1)
  | .error (e, st1) =>
    match e with
    | .valueError m => .ok (mkErrorResponse rid (-32602) m, st1)
    | .keyError m => .ok (mkErrorResponse rid (-32602) ("Missing key: " ++ m), st1)
    | .typeError m => .ok (mkErrorResponse rid (-32603) m, st1)
    | .runtimeError m => .ok (mkErrorResponse rid (-32603) m, st1)
    | _ => .error (e, st1)

/-! ## Concrete fixtures used by counterexamples and witnesses -/

/-- A network oracle on which every fetch succeeds with empty text. -/
def w0 : World := fun _ => .success ""

/-- A network oracle on which every fetch raises `httpx.RequestError`
(network failure, e.g. connection refused). -/
def failWorld : World := fun _ => .exc (.requestError "connection refused")

/-- A network oracle on which every fetch gets a non-2xx reply, so
`raise_for_status` raises `httpx.HTTPStatusError`. -/
def httpFailWorld : World := fun _ => .exc (.httpStatusError "Server error 500")

/-- A network oracle on which every fetch succeeds with a fixed body. -/
def okWorld : World := fun _ => .success "all about query terms"

/-- A catalog with one resource whose description mentions the query and
whose content is already cached. -/
def stOneDoc : DocState :=
  { resources := [{ uri := "https://docs.llamaindex.ai/u1",
                    name := "llamaindex_doc_0",
                    description := "querydoc",
                    mime_type := "text/html" }],
    cached_docs := [("https://docs.llamaindex.ai/u1", "the query line")] }

/-! ## C1: search result count versus the limit -/

/-- Helper for the C1 analysis: with `limit` a JSON integer `n`, the search
loop's post-append check `len(results) >= limit` bounds the final result
count by `max n (acc.length + 1)` for accumulator `acc`. -/
theorem searchLoop_length_le (world : World) (n : Int) (ql : String) :
    ∀ (rs : List MCPResource) (st : DocState) (acc res : List SearchResult)
      (st' : DocState),
      searchLoop world st rs ql (Json.num n) acc = .ok (res, st') →
      (res.length : Int) ≤ max n ((acc.length : Int) + 1) := by
  intro rs
  induction rs with
  | nil =>
    intro st acc res st' h
    simp only [searchLoop] at h
    cases h
    simp only [List.length_reverse]
    have := le_max_right n ((acc.length : Int) + 1)
    omega
  | cons r rest ih =>
    intro st acc res st' h
    rw [searchLoop] at h
    by_cases hc : (pyIn ql (lowerStr r.description) || pyIn ql (lowerStr r.name)) = true
    · rw [if_pos hc] at h
      cases hf : fetch_resource_content st world r.uri with
      | error es => rw [hf] at h; cases h
      | ok v =>
        obtain ⟨content, st1, b⟩ := v
        rw [hf] at h
        dsimp only [] at h
        by_cases hm : pyIn ql (lowerStr content) = true
        · rw [if_pos hm] at h
          simp only [pyIntGe, List.length_cons] at h
          by_cases hn : n ≤ ((acc.length + 1 : Nat) : Int)
          · rw [decide_eq_true hn] at h
            dsimp only [] at h
            cases h
            simp only [List.length_reverse, List.length_cons]
            push_cast
            push_cast at hn
            omega
          · rw [decide_eq_false hn] at h
            dsimp only [] at h
            have hrec := ih st1 _ res st' h
            simp only [List.length_cons] at hrec
            push_cast at hrec hn ⊢
            omega
        · rw [if_neg hm] at h
          exact ih st1 acc res st' h
    · rw [if_neg hc] at h
      exact ih st acc res st' h

/-- C1.  The claim states that `search_documentation(query, limit)` returns
at most `limit` entries for every `limit ≥ 0`, and in particular that
`search_documentation(query, 0)` is empty.  Counterexample: on a catalog
with one matching resource whose content is cached and matches, a search
with limit 0 returns one entry, because the source checks
`len(results) >= limit` only after appending a result. -/
theorem C1_counterexample :
    search_documentation stOneDoc w0 (Json.str "query") (Json.num 0)
      = .ok ([{ uri := "https://docs.llamaindex.ai/u1", title := "querydoc",
                snippet := "the query line" }], stOneDoc) := by
  rfl

/-- C1 (amended).  For every catalog state, network oracle, query string and
integer limit `n ≥ 0`, a completed `search_documentation` call returns at
most `max n 1` entries: at most `n` entries when `n ≥ 1`, and at most one
entry when `n = 0` (the limit check runs only after a result is appended,
so the first match slips through a zero limit). -/
theorem C1_search_length_le_max_limit_one (st : DocState) (world : World)
    (q : String) (n : Int) (res : List SearchResult) (st' : DocState)
    (_hn : 0 ≤ n)
    (h : search_documentation st world (Json.str q) (Json.num n) = .ok (res, st')) :
    (res.length : Int) ≤ max n 1 := by
  have := searchLoop_length_le world n (lowerStr q) st.resources st [] res st' h
  simpa using this

/-- Witness for C1 (amended) at a concrete input: the one-resource catalog,
query `query`, limit 5. -/
theorem C1_search_length_witness :
    (0 : Int) ≤ 5 ∧
    (([{ uri := "https://docs.llamaindex.ai/u1", title := "querydoc",
         snippet := "the query line" }] : List SearchResult).length : Int) ≤ max 5 1 :=
  ⟨by norm_num,
   C1_search_length_le_max_limit_one stOneDoc w0 "query" 5 _ stOneDoc
     (by norm_num) (by rfl)⟩

/-! ## C2: discovery failure and the fallback catalog -/

/-- C2.  The claim states that any discovery failure — network failure,
non-2xx status, or parse failure — leaves the catalog equal to the fixed
5-entry fallback set.  Evaluating the code at a non-2xx status:
`raise_for_status` raises `httpx.HTTPStatusError`, which matches neither
`except` clause of `_fetch_doc_structure` (they name `httpx.RequestError`
and `(AttributeError, TypeError, ValueError)`), propagates to `initialize`,
and is only logged there — so the catalog stays empty, while the fallback
set it should equal has five entries. -/
theorem C2_http_status_skips_fallback :
    docServerInit freshDocState (.exc (.httpStatusError "Server error 404"))
        = .ok freshDocState
      ∧ freshDocState.resources = []
      ∧ (add_default_resources freshDocState).resources.length = 5
      ∧ (add_default_resources freshDocState).resources.map MCPResource.name
          = ["llamaindex_getting_started", "llamaindex_data_loading",
             "llamaindex_indexing", "llamaindex_querying", "llamaindex_agents"] := by
  refine ⟨rfl, rfl, rfl, ?_⟩
  rfl

/-- C2 (supporting): on the failure kinds the source does handle — network
failure (`httpx.RequestError`) and parse failure (`AttributeError`,
`TypeError`, `ValueError`) — the catalog from a fresh start is exactly the
fixed 5-entry fallback set, in fixed order. -/
theorem C2_handled_failures_get_fallback (e : PyExc)
    (he : e.isRequestError = true ∨ e.isATV = true) :
    docServerInit freshDocState (.exc e) = .ok (add_default_resources freshDocState) := by
  rcases he with h | h
  · simp [docServerInit, fetch_doc_structure, h]
  · cases e <;> simp_all [docServerInit, fetch_doc_structure, PyExc.isRequestError, PyExc.isATV]

/-- Witness for the supporting C2 theorem at a concrete exception. -/
theorem C2_handled_failures_witness :
    docServerInit freshDocState (.exc (.requestError "connection refused"))
      = .ok (add_default_resources freshDocState) :=
  C2_handled_failures_get_fallback (.requestError "connection refused") (Or.inl rfl)

/-! ## C3: memoization of fetch results -/

/-- C3.  The claim states that after `fetch_resource_content(uri)` returns,
the cache contains an entry for `uri` equal to the returned text on every
path, error paths included.  Counterexample: on a network failure the
function returns the error text but the `except` clauses return without
writing the cache, so the cache still has no entry for the URI. -/
theorem C3_counterexample :
    fetch_resource_content freshDocState failWorld "https://docs.llamaindex.ai/x"
        = .ok ("HTTP error fetching content: connection refused", freshDocState, true)
      ∧ lookupCache freshDocState "https://docs.llamaindex.ai/x" = none :=
  ⟨rfl, rfl⟩

/-- C3 (amended).  A completed `fetch_resource_content` call either leaves
the cache mapping the URI to the returned text (the cache-hit and
successful-fetch paths), or — on the caught-failure paths — returns the
error text with the state unchanged and the URI still absent from the
cache. -/
theorem C3_memoize_success_paths_only (st : DocState) (world : World)
    (uri t : String) (st' : DocState) (r : Bool)
    (h : fetch_resource_content st world uri = .ok (t, st', r)) :
    lookupCache st' uri = some t ∨ (st' = st ∧ lookupCache st uri = none) := by
  unfold fetch_resource_content at h
  cases hc : lookupCache st uri with
  | some cached =>
    rw [hc] at h
    cases h
    left
    exact hc
  | none =>
    rw [hc] at h
    cases hw : world uri with
    | success text =>
      rw [hw] at h
      cases h
      left
      simp [lookupCache]
    | exc e =>
      rw [hw] at h
      dsimp only [] at h
      by_cases h1 : e.isRequestError = true
      · rw [if_pos h1] at h
        cases h
        exact Or.inr ⟨rfl, rfl⟩
      · rw [if_neg h1] at h
        by_cases h2 : e.isHTTPError = true
        · rw [if_pos h2] at h
          cases h
          exact Or.inr ⟨rfl, rfl⟩
        · rw [if_neg h2] at h
          by_cases h3 : e.isATV = true
          · rw [if_pos h3] at h
            cases h
            exact Or.inr ⟨rfl, rfl⟩
          · rw [if_neg h3] at h
            cases h

/-- Witness for C3 (amended) at a concrete successful fetch. -/
theorem C3_memoize_witness :
    lookupCache { resources := [],
                  cached_docs := [("https://docs.llamaindex.ai/u2", "all about query terms")] }
        "https://docs.llamaindex.ai/u2" = some "all about query terms"
      ∨ (({ resources := [],
            cached_docs := [("https://docs.llamaindex.ai/u2", "all about query terms")] } : DocState)
            = freshDocState
          ∧ lookupCache freshDocState "https://docs.llamaindex.ai/u2" = none) :=
  C3_memoize_success_paths_only freshDocState okWorld "https://docs.llamaindex.ai/u2"
    "all about query terms" _ true rfl

/-! ## C7: the fetcher converts failures to text instead of raising -/

/-- C7.  If the GET/extract step for a URI can only fail with a network
failure (`httpx.RequestError`), a non-2xx status (`httpx.HTTPStatusError`),
or a parse failure (`AttributeError`/`TypeError`/`ValueError`), then
`fetch_resource_content` always returns normally — every such failure is
caught inside the fetcher and folded into returned text. -/
theorem C7_fetch_never_raises (st : DocState) (world : World) (uri : String)
    (h : ∀ e, world uri = .exc e →
      (e.isRequestError || e.isHTTPStatusError || e.isATV) = true) :
    ∃ t st' r, fetch_resource_content st world uri = .ok (t, st', r) := by
  unfold fetch_resource_content
  cases hc : lookupCache st uri with
  | some cached => exact ⟨cached, st, false, rfl⟩
  | none =>
    cases hw : world uri with
    | success text => exact ⟨text, _, true, rfl⟩
    | exc e =>
      have he := h e hw
      cases e <;> simp_all [PyExc.isRequestError, PyExc.isHTTPStatusError,
        PyExc.isHTTPError, PyExc.isATV]

/-- Witness for C7 at a concrete input: a fresh server and an oracle whose
fetches all fail with a non-2xx status. -/
theorem C7_witness :
    ∃ t st' r, fetch_resource_content freshDocState httpFailWorld
      "https://docs.llamaindex.ai/y" = .ok (t, st', r) := by
  refine C7_fetch_never_raises freshDocState httpFailWorld
    "https://docs.llamaindex.ai/y" ?_
  intro e h
  injection h with h1
  subst h1
  rfl

/-! ## C8: fetching the same URI twice -/

/-- Two sequential `fetch_resource_content` calls on the same URI: the texts
and outbound-request flags of the first and second call. -/
def twoFetches (st : DocState) (world : World) (uri : String) :
    Option (String × Bool × String × Bool) :=
  match fetch_resource_content st world uri with
  | .ok (t1, st1, r1) =>
    match fetch_resource_content st1 world uri with
    | .ok (t2, _, r2) => some (t1, r1, t2, r2)
    | .error _ => none
  | .error _ => none

/-- C8.  The claim states that for every URI a second sequential fetch
returns identical text and performs no second outbound request.
Counterexample: when the fetch fails with a network error, nothing is
cached, so the second call attempts another outbound request (its
request flag is `true` again). -/
theorem C8_counterexample :
    twoFetches freshDocState failWorld "https://docs.llamaindex.ai/z"
      = some ("HTTP error fetching content: connection refused", true,
              "HTTP error fetching content: connection refused", true) := rfl

/-- C8 (amended).  (a) If a fetch completes and the URI's GET succeeded (or
the URI was already cached), the second sequential call returns the
identical text from the cache with no outbound request.  (b) But after a
cache-miss fetch that fails with one of the caught failure kinds, the state
is unchanged and the outbound-request flag is set — so a repeat call is the
very same cache-miss call and attempts another outbound request. -/
theorem C8_second_fetch_from_cache :
    (∀ (st : DocState) (world : World) (uri t : String) (st' : DocState) (r : Bool),
      fetch_resource_content st world uri = .ok (t, st', r) →
      ((∃ text, world uri = .success text) ∨ lookupCache st uri ≠ none) →
      fetch_resource_content st' world uri = .ok (t, st', false))
    ∧ (∀ (st : DocState) (world : World) (uri : String) (e : PyExc),
      lookupCache st uri = none → world uri = .exc e →
      (e.isRequestError || e.isHTTPError || e.isATV) = true →
      ∃ msgt, fetch_resource_content st world uri = .ok (msgt, st, true)) := by
  constructor
  · intro st world uri t st' r h hok
    unfold fetch_resource_content at h
    cases hc : lookupCache st uri with
    | some cached =>
      rw [hc] at h
      cases h
      unfold fetch_resource_content
      rw [hc]
    | none =>
      rw [hc] at h
      rcases hok with ⟨text, hw⟩ | hne
      · rw [hw] at h
        cases h
        unfold fetch_resource_content
        simp [lookupCache]
      · exact absurd hc hne
  · intro st world uri e hc hw he
    unfold fetch_resource_content
    rw [hc, hw]
    cases e <;> simp_all [PyExc.isRequestError, PyExc.isHTTPError, PyExc.isATV]

/-- Witness for C8 (amended), both parts at concrete inputs: a successful
fetch that seeds the cache, and a network-failing fetch that does not. -/
theorem C8_second_fetch_witness :
    fetch_resource_content
        { resources := [],
          cached_docs := [("https://docs.llamaindex.ai/u2", "all about query terms")] }
        okWorld "https://docs.llamaindex.ai/u2"
      = .ok ("all about query terms",
          { resources := [],
            cached_docs := [("https://docs.llamaindex.ai/u2", "all about query terms")] },
          false)
    ∧ ∃ msgt, fetch_resource_content freshDocState failWorld
        "https://docs.llamaindex.ai/z" = .ok (msgt, freshDocState, true) :=
  ⟨C8_second_fetch_from_cache.1 freshDocState okWorld "https://docs.llamaindex.ai/u2"
      "all about query terms" _ true rfl (Or.inl ⟨"all about query terms", rfl⟩),
   C8_second_fetch_from_cache.2 freshDocState failWorld "https://docs.llamaindex.ai/z"
      (.requestError "connection refused") rfl rfl rfl⟩

/-! ## C9: missing query argument escapes the dispatcher -/

/-- A `tools/call` request naming `search_llamaindex_docs` whose arguments
omit `query`. -/
def reqSearchNoQuery : List (String × Json) :=
  [("jsonrpc", Json.str "2.0"), ("id", Json.num 1),
   ("method", Json.str "tools/call"),
   ("params", Json.obj [("name", Json.str "search_llamaindex_docs"),
                        ("arguments", Json.obj [])])]

/-- C9.  With `query` omitted, `arguments.get("query")` yields `None`,
`search_documentation` immediately evaluates `query.lower()`, raising
`AttributeError`; the dispatcher's `except` clauses name only `ValueError`,
`KeyError`, `TypeError` and `RuntimeError`, so the exception escapes
`handle_request` to the transport layer instead of becoming an error
response. -/
theorem C9_missing_query_escapes :
    handle_request freshDocState w0 reqSearchNoQuery
      = .error (.attributeError "object has no attribute lower", freshDocState) := rfl

/-! ## C5: shape of every produced response -/

/-- C5.  Whenever `handle_request` produces a response, that response has
`jsonrpc` equal to `"2.0"`, an `id` equal to the request's `id` (`null`
when the request carries none), and exactly one of `result` and `error` —
never both, never neither. -/
theorem C5_response_shape (st : DocState) (world : World)
    (req : List (String × Json)) (resp : RpcResponse) (st' : DocState)
    (h : handle_request st world req = .ok (resp, st')) :
    resp.jsonrpc = "2.0"
      ∧ resp.id = (jget req "id").getD Json.null
      ∧ ((resp.result.isSome ∧ resp.error = none)
          ∨ (resp.result = none ∧ resp.error.isSome)) := by
  unfold handle_request at h
  cases hb : handleBody st world req with
  | ok bo =>
    rw [hb] at h
    cases bo with
    | success r st1 =>
      cases h
      exact ⟨rfl, rfl, Or.inl ⟨rfl, rfl⟩⟩
    | errResp code msg st1 =>
      cases h
      exact ⟨rfl, rfl, Or.inr ⟨rfl, rfl⟩⟩
  | error es =>
    rw [hb] at h
    obtain ⟨e, st1⟩ := es
    cases e <;> dsimp only [] at h <;> first
      | (cases h; exact ⟨rfl, rfl, Or.inr ⟨rfl, rfl⟩⟩)
      | cases h

/-- Witness for C5 at a concrete input: an `initialize` request with id 7. -/
theorem C5_response_shape_witness :
    (mkResultResponse (Json.num 7) initResult).jsonrpc = "2.0"
      ∧ (mkResultResponse (Json.num 7) initResult).id
          = (jget [("jsonrpc", Json.str "2.0"), ("id", Json.num 7),
                   ("method", Json.str "initialize")] "id").getD Json.null
      ∧ (((mkResultResponse (Json.num 7) initResult).result.isSome
            ∧ (mkResultResponse (Json.num 7) initResult).error = none)
          ∨ ((mkResultResponse (Json.num 7) initResult).result = none
            ∧ (mkResultResponse (Json.num 7) initResult).error.isSome)) :=
  C5_response_shape freshDocState w0
    [("jsonrpc", Json.str "2.0"), ("id", Json.num 7), ("method", Json.str "initialize")]
    (mkResultResponse (Json.num 7) initResult) freshDocState rfl

/-! ## C4: error codes for unknown method, unknown tool, missing uri -/

/-- C4.  (a) An unknown method name yields a -32601 error response; (b) a
`tools/call` with an unknown tool name yields a -32601 error response;
(c) a `resources/read` without a `uri` parameter yields a -32602 error
response.  In all three cases `handle_request` returns normally — the
condition does not escape as an exception. -/
theorem C4_error_codes :
    (∀ (st : DocState) (world : World) (req : List (String × Json)) (m : String),
      jget req "method" = some (Json.str m) →
      m ≠ "initialize" → m ≠ "resources/list" → m ≠ "resources/read" →
      m ≠ "tools/list" → m ≠ "tools/call" →
      handle_request st world req
        = .ok (mkErrorResponse ((jget req "id").getD Json.null) (-32601)
            ("Method not found: " ++ m), st))
    ∧ (∀ (st : DocState) (world : World) (req : List (String × Json))
        (pl : List (String × Json)) (tn : String),
        jget req "method" = some (Json.str "tools/call") →
        jget req "params" = some (Json.obj pl) →
        jget pl "name" = some (Json.str tn) →
        tn ≠ "search_llamaindex_docs" → tn ≠ "get_llamaindex_resource" →
        handle_request st world req
          = .ok (mkErrorResponse ((jget req "id").getD Json.null) (-32601)
              ("Method not found: Unknown tool " ++ tn), st))
    ∧ (∀ (st : DocState) (world : World) (req : List (String × Json))
        (pl : List (String × Json)),
        jget req "method" = some (Json.str "resources/read") →
        jget req "params" = some (Json.obj pl) →
        jget pl "uri" = none →
        handle_request st world req
          = .ok (mkErrorResponse ((jget req "id").getD Json.null) (-32602)
              "Invalid params: URI parameter is required", st)) := by
  refine ⟨?_, ?_, ?_⟩
  · intro st world req m hm h1 h2 h3 h4 h5
    unfold handle_request handleBody
    rw [hm]
    simp [isJStr, beq_iff_eq, h1, h2, h3, h4, h5, pyStrOpt, pyStr]
  · intro st world req pl tn hm hp hn h1 h2
    unfold handle_request handleBody
    rw [hm, hp]
    simp [isJStr, beq_iff_eq, hn, h1, h2, pyStrOpt, pyStr]
  · intro st world req pl hm hp hu
    unfold handle_request handleBody
    rw [hm, hp]
    simp [isJStr, beq_iff_eq, hu, jsonFalsy]

/-- Witness for C4, all three parts at concrete requests: an unknown method
`unknown_method` (id 3), an unknown tool `nonexistent` (id 4), and a
`resources/read` with empty params (id 5). -/
theorem C4_error_codes_witness :
    handle_request freshDocState w0
        [("id", Json.num 3), ("method", Json.str "unknown_method")]
      = .ok (mkErrorResponse (Json.num 3) (-32601)
          "Method not found: unknown_method", freshDocState)
    ∧ handle_request freshDocState w0
        [("id", Json.num 4), ("method", Json.str "tools/call"),
         ("params", Json.obj [("name", Json.str "nonexistent")])]
      = .ok (mkErrorResponse (Json.num 4) (-32601)
          "Method not found: Unknown tool nonexistent", freshDocState)
    ∧ handle_request freshDocState w0
        [("id", Json.num 5), ("method", Json.str "resources/read"),
         ("params", Json.obj [])]
      = .ok (mkErrorResponse (Json.num 5) (-32602)
          "Invalid params: URI parameter is required", freshDocState) := by
  refine ⟨?_, ?_, ?_⟩
  · have h := C4_error_codes.1 freshDocState w0
      [("id", Json.num 3), ("method", Json.str "unknown_method")] "unknown_method"
      rfl (by decide) (by decide) (by decide) (by decide) (by decide)
    simpa using h
  · have h := C4_error_codes.2.1 freshDocState w0
      [("id", Json.num 4), ("method", Json.str "tools/call"),
       ("params", Json.obj [("name", Json.str "nonexistent")])]
      [("name", Json.str "nonexistent")] "nonexistent"
      rfl rfl rfl (by decide) (by decide)
    simpa using h
  · have h := C4_error_codes.2.2 freshDocState w0
      [("id", Json.num 5), ("method", Json.str "resources/read"),
       ("params", Json.obj [])] []
      rfl rfl rfl
    simpa using h

/-! ## C10: mime types in the catalog versus in read responses -/

/-- Every resource synthesized by the discovery loop carries mime type
`text/html`. -/
theorem buildDiscovered_mime : ∀ (idx : Nat) (links : List (String × String))
    (seen : List String) (r : MCPResource),
    r ∈ buildDiscovered idx links seen → r.mime_type = "text/html" := by
  intro idx links
  induction links generalizing idx with
  | nil => intro seen r hr; simp [buildDiscovered] at hr
  | cons l rest ih =>
    intro seen r hr
    obtain ⟨url, title⟩ := l
    rw [buildDiscovered] at hr
    by_cases hs : url ∈ seen
    · rw [if_pos hs] at hr
      exact ih idx seen r hr
    · rw [if_neg hs] at hr
      rcases List.mem_cons.mp hr with h | h
      · subst h; rfl
      · exact ih (idx + 1) (url :: seen) r h

/-- Every resource appended by the fallback carries mime type `text/html`. -/
theorem add_default_resources_mime (st : DocState) (r : MCPResource)
    (hr : r ∈ (add_default_resources st).resources) :
    r ∈ st.resources ∨ r.mime_type = "text/html" := by
  simp only [add_default_resources, List.mem_append] at hr
  rcases hr with h | h
  · exact Or.inl h
  · right
    obtain ⟨pt, _, rfl⟩ := List.mem_map.mp h
    rfl

/-- A `resources/read` request for URI `u` with the given id. -/
def readReq (idJ : Json) (u : String) : List (String × Json) :=
  [("jsonrpc", Json.str "2.0"), ("id", idJ),
   ("method", Json.str "resources/read"),
   ("params", Json.obj [("uri", Json.str u)])]

/-- Extract `contents[0].mimeType` from a `resources/read` result payload. -/
def extractContentsMime : Option Json → Option Json
  | some (.obj l) =>
    match jget l "contents" with
    | some (.arr (Json.obj fl :: _)) => jget fl "mimeType"
    | _ => none
  | _ => none

/-- A non-empty string is truthy. -/
theorem ne_empty_data (u : String) (hu : u ≠ "") : u.data.isEmpty = false := by
  cases u with
  | mk l =>
    cases l with
    | nil => exact absurd rfl hu
    | cons c t => rfl

/-- Routing a `readReq` through the dispatch body reaches the fetch. -/
theorem handleBody_readReq (st : DocState) (world : World) (idJ : Json)
    (u : String) (hu : u ≠ "") :
    handleBody st world (readReq idJ u)
      = match fetch_resource_content st world u with
        | .ok (content, st1, _) => .ok (.success (readResult (Json.str u) content) st1)
        | .error es => .error es := by
  unfold handleBody
  simp [readReq, jget, isJStr, jsonFalsy, ne_empty_data u hu, fetchResourceContentJ]

/-- C10.  (a) Every resource the catalog bootstrap ever places — whether by
discovery or by the fallback — carries mime type `text/html`; the dataclass
default `text/plain` is never used.  (b) Yet every successful
`resources/read` response reports its contents with mime type `text/plain`,
regardless of the stored mime type. -/
theorem C10_catalog_html_read_plain :
    (∀ (d : DiscoveryOutcome) (st' : DocState),
      docServerInit freshDocState d = .ok st' →
      ∀ r ∈ st'.resources, r.mime_type = "text/html")
    ∧ (∀ (st : DocState) (world : World) (idJ : Json) (u : String)
        (resp : RpcResponse) (st' : DocState),
        u ≠ "" →
        handle_request st world (readReq idJ u) = .ok (resp, st') →
        resp.error = none →
        extractContentsMime resp.result = some (Json.str "text/plain")) := by
  constructor
  · intro d st' h
    cases d with
    | links ls =>
      unfold docServerInit fetch_doc_structure at h
      cases h
      intro r hr
      simp only [freshDocState, List.nil_append] at hr
      exact buildDiscovered_mime _ _ _ r hr
    | exc e =>
      unfold docServerInit fetch_doc_structure at h
      dsimp only [] at h
      by_cases h1 : e.isRequestError = true
      · rw [if_pos h1] at h
        cases h
        intro r hr
        rcases add_default_resources_mime freshDocState r hr with hmem | hh
        · simp [freshDocState] at hmem
        · exact hh
      · rw [if_neg h1] at h
        by_cases h2 : e.isATV = true
        · rw [if_pos h2] at h
          cases h
          intro r hr
          rcases add_default_resources_mime freshDocState r hr with hmem | hh
          · simp [freshDocState] at hmem
          · exact hh
        · rw [if_neg h2] at h
          dsimp only [] at h
          by_cases h3 : (e.isHTTPStatusError || e.isRequestError || e.isATV) = true
          · rw [if_pos h3] at h
            cases h
            intro r hr
            simp [freshDocState] at hr
          · rw [if_neg h3] at h
            cases h
  · intro st world idJ u resp st' hu h herr
    unfold handle_request at h
    rw [handleBody_readReq st world idJ u hu] at h
    cases hf : fetch_resource_content st world u with
    | ok v =>
      obtain ⟨content, st1, b⟩ := v
      rw [hf] at h
      dsimp only [] at h
      cases h
      simp [mkResultResponse, extractContentsMime, readResult, jget]
    | error es =>
      obtain ⟨e, st1⟩ := es
      rw [hf] at h
      dsimp only [] at h
      cases e <;> dsimp only [] at h <;> first
        | (cases h; simp [mkErrorResponse] at herr)
        | cases h

/-- Witness for C10 at concrete inputs: a discovery failure populating the
fallback set (checking the first fallback resource), and a concrete read of
an uncached URI over a succeeding network oracle. -/
theorem C10_witness :
    ({ uri := baseUrl ++ "/en/stable/getting_started/starter_example.html",
       name := "llamaindex_getting_started",
       description := "LlamaIndex Documentation: Getting Started",
       mime_type := "text/html" } : MCPResource).mime_type = "text/html"
    ∧ extractContentsMime (mkResultResponse (Json.num 2)
        (readResult (Json.str "https://docs.llamaindex.ai/u3") "")).result
      = some (Json.str "text/plain") :=
  ⟨C10_catalog_html_read_plain.1 (.exc (.requestError "connection refused"))
      (add_default_resources freshDocState) rfl
      { uri := baseUrl ++ "/en/stable/getting_started/starter_example.html",
        name := "llamaindex_getting_started",
        description := "LlamaIndex Documentation: Getting Started",
        mime_type := "text/html" } (by decide),
   C10_catalog_html_read_plain.2 freshDocState w0 (Json.num 2)
      "https://docs.llamaindex.ai/u3"
      (mkResultResponse (Json.num 2)
        (readResult (Json.str "https://docs.llamaindex.ai/u3") ""))
      { resources := [], cached_docs := [("https://docs.llamaindex.ai/u3", "")] }
      (by decide) rfl rfl⟩

/-! ## C6: discovery cap and uniqueness (spec-modelled discovery) -/

/-- The deduplication pass produces pairwise-distinct URLs, none of which
was already seen. -/
theorem dedupLinks_urls_nodup : ∀ (links : List (String × String)) (seen : List String),
    ((dedupLinks links seen).map Prod.fst).Nodup
      ∧ ∀ u ∈ (dedupLinks links seen).map Prod.fst, u ∉ seen := by
  intro links
  induction links with
  | nil => intro seen; simp [dedupLinks]
  | cons l rest ih =>
    intro seen
    obtain ⟨url, title⟩ := l
    rw [dedupLinks]
    by_cases hs : url ∈ seen
    · rw [if_pos hs]
      exact ih seen
    · rw [if_neg hs]
      obtain ⟨ihnd, ihseen⟩ := ih (url :: seen)
      refine ⟨?_, ?_⟩
      · simp only [List.map_cons, List.nodup_cons]
        refine ⟨fun hmem => ?_, ihnd⟩
        exact (ihseen url hmem) (List.mem_cons_self url seen)
      · intro u hu
        rcases List.mem_cons.mp hu with h | h
        · subst h; exact hs
        · intro huseen
          exact (ihseen u h) (List.mem_cons_of_mem url huseen)

/-- The synthesized resources' URIs are exactly the surviving links'
resolved URLs. -/
theorem mkDocResources_map_uri : ∀ (idx : Nat) (links : List (String × String)),
    (mkDocResources idx links).map MCPResource.uri = links.map Prod.fst := by
  intro idx links
  induction links generalizing idx with
  | nil => rfl
  | cons l rest ih =>
    obtain ⟨url, title⟩ := l
    simp [mkDocResources, ih (idx + 1)]

/-- C6.  For every link list and every resource-count cap, the
spec-described discovery pipeline — deduplicate collected links by resolved
URL preserving first-seen order, then truncate to the cap — returns at most
`limit` resources, all with pairwise-distinct URIs. -/
theorem C6_discover_bounded_unique (links : List (String × String)) (limit : Nat) :
    (discover links limit).length ≤ limit
      ∧ ((discover links limit).map MCPResource.uri).Nodup := by
  constructor
  · have hlen : (discover links limit).length
        = ((dedupLinks links []).take limit).length := by
      have h := congrArg List.length
        (mkDocResources_map_uri 0 ((dedupLinks links []).take limit))
      simp only [List.length_map] at h
      simpa [discover] using h
    rw [hlen]
    exact List.length_take_le limit (dedupLinks links [])
  · unfold discover
    rw [mkDocResources_map_uri]
    have hnd := (dedupLinks_urls_nodup links []).1
    have hmt : ((dedupLinks links []).take limit).map Prod.fst
        = ((dedupLinks links []).map Prod.fst).take limit := by
      simp [List.map_take]
    rw [hmt]
    exact hnd.sublist (List.take_sublist limit _)
